import Mathlib

/-!
Verification of the go-gob-http core: the gob-safe error codec (gob.go, and its
textually identical copy in the dvr source file), the request/response snapshot
builders, and the query-snapshot reconstruction.  Go values are shallowly
embedded: machine strings stay `String`, byte slices become `List Nat`, Go's
`int`/`int64` become `Int`, nilable pointers become `Option`, a fallible call
returns `Except`, and a runtime panic is modelled as the `Except.error` branch
of a function that otherwise cannot fail.
-/

namespace Gobhttp

set_option synthInstance.maxHeartbeats 1000000

/-- Model of a concrete Go error value: the fully qualified identifier of its
base (pointer-free) type as the source computes it (`PkgPath.Name`, gob.go line
115), the string its `Error()` method returns, and its remaining gob-visible
exported fields as key/value pairs.  The message is carried as part of the
value because `Error()` is a pure function of the value's state. -/
structure ConcreteError where
  typeId : String
  message : String
  fields : List (String × String)
deriving DecidableEq

/-- Model of a `reflect.Value` holding an error, as walked by the unwrapping
loops of `registerErrorType` and `GobEncode`.  `ptr v` is a pointer whose
`Elem()` is `v`; a nil pointer is `ptr invalid`, because `Elem()` of a nil
pointer is reflect's zero `Value`.  Interface wrappers unwrap the same way as
pointers in the source loop, so they are not distinguished here. -/
inductive ReflectValue where
  | invalid : ReflectValue
  | concrete : ConcreteError → ReflectValue
  | ptr : ReflectValue → ReflectValue
deriving DecidableEq

/-- Result of the unwrapping loop: either a concrete error value, or reflect's
zero `Value` (reached exactly when the chain ends in a nil pointer). -/
inductive BaseValue where
  | invalid : BaseValue
  | concrete : ConcreteError → BaseValue
deriving DecidableEq

/-- Model of the loop `for value.Kind() == reflect.Interface || value.Kind() ==
reflect.Ptr { value = value.Elem() }` (gob.go lines 109-112 and 81-87). -/
def unwrap : ReflectValue → BaseValue
  | .ptr v => unwrap v
  | .invalid => .invalid
  | .concrete e => .concrete e

/-- Fully qualified identifier of `gobSafeError` as computed by gob.go line
115 for the repository's package. -/
def gobSafeErrorTypeId : String := "github.com/MiCHiLU/go-gob-http.gobSafeError"

/-- Fully qualified identifier of the standard library's bare string error
type, compared against on gob.go line 120. -/
def errorsErrorStringTypeId : String := "errors.errorString"

/-- Model of the conversion `gobSafeError(msg)` (gob.go line 126): a string
error whose only state is its message. -/
def gobSafeError (s : String) : ConcreteError :=
  { typeId := gobSafeErrorTypeId, message := s, fields := [] }

/-- Model of `errors.New(msg)` (gob.go line 150): a bare string error of type
`errors.errorString` whose only state is its message. -/
def errorsNew (s : String) : ConcreteError :=
  { typeId := errorsErrorStringTypeId, message := s, fields := [] }

/-- Process-wide registration state: `encodableTypes` is the map of gob.go
line 49 (membership is all the source reads), and `gobRegistered` is the
name registry of `encoding/gob` keyed by the base type identifier (gob's
`Register` strips pointer indirections to the base type when keying the
name, which is why the source's base-type identifier is the right key). -/
structure RegState where
  encodableTypes : List String
  gobRegistered : List String
deriving DecidableEq

/-- Model of `registerErrorType` (gob.go lines 79-91): walks the sample down
to its base type, registers the wrapper chain with gob, and marks the base
type identifier encodable.  All call sites pass `new(T)` pointer samples, so
both registries receive the base type identifier. -/
def registerErrorType (st : RegState) (typeId : String) : RegState :=
  { encodableTypes := typeId :: st.encodableTypes
    gobRegistered := typeId :: st.gobRegistered }

/-- Base type identifiers registered by `init()` (gob.go lines 52-71), in
call order; `net.DNSError` appears twice exactly as in the source. -/
def initTypeIds : List String :=
  [gobSafeErrorTypeId, "net/http.ProtocolError", "net.AddrError",
   "net.DNSConfigError", "net.DNSError", "net.DNSError",
   "net.InvalidAddrError", "net.OpError", "net.ParseError",
   "net.UnknownNetworkError", "net/url.Error", "net/url.EscapeError"]

/-- Registration state after `init()` has run. -/
def initState : RegState := initTypeIds.foldl registerErrorType ⟨[], []⟩

/-- Model of the `gobRawError` envelope (gob.go lines 160-166).  The payload
is a populated error value: the encoder never stores an absent error in the
envelope (an absent error short-circuits to the empty byte sequence). -/
structure gobRawError where
  Error : ConcreteError
  ErrorsErrorString : Bool
deriving DecidableEq

/-- Wire form of a string in the modelled gob stream: character count
followed by the character codes. -/
def encStr (s : String) : List Nat :=
  s.data.length :: s.data.map Char.toNat

/-- Parser for `encStr`: reads a count, then that many character codes;
fails on truncated input. -/
def decStr : List Nat → Option (String × List Nat)
  | [] => none
  | n :: rest =>
    if n ≤ rest.length then
      some (String.mk ((rest.take n).map Char.ofNat), rest.drop n)
    else none

/-- Wire form of the field list of an error value: each key and value as a
string, concatenated. -/
def encFieldList : List (String × String) → List Nat
  | [] => []
  | kv :: r => encStr kv.1 ++ (encStr kv.2 ++ encFieldList r)

/-- Parser for `encFieldList`, given the announced field count. -/
def decFieldList : Nat → List Nat → Option (List (String × String) × List Nat)
  | 0, bs => some ([], bs)
  | Nat.succ n, bs =>
    match decStr bs with
    | none => none
    | some (k, bs1) =>
      match decStr bs1 with
      | none => none
      | some (v, bs2) =>
        match decFieldList n bs2 with
        | none => none
        | some (l, bs3) => some ((k, v) :: l, bs3)

/-- Wire form of a boolean. -/
def encBool (b : Bool) : List Nat := [if b then 1 else 0]

/-- Parser for `encBool`. -/
def decBool : List Nat → Option (Bool × List Nat)
  | 0 :: r => some (false, r)
  | 1 :: r => some (true, r)
  | _ => none

/-- Byte sequence `encoding/gob` produces for one `gobRawError` envelope in
this model: the payload's registered type name, its message, its field count
and fields, then the `ErrorsErrorString` flag. -/
def rawBytes (raw : gobRawError) : List Nat :=
  encStr raw.Error.typeId ++ (encStr raw.Error.message ++
    (raw.Error.fields.length :: (encFieldList raw.Error.fields ++
      encBool raw.ErrorsErrorString)))

/-- Model of `gob.Encoder.Encode` on a `gobRawError` (gob.go lines 130-132).
Encoding an interface value fails unless the payload's base type has been
registered with gob; otherwise it emits the type-tagged envelope bytes. -/
def gobEnc (reg : List String) (raw : gobRawError) : Except String (List Nat) :=
  if raw.Error.typeId ∈ reg then
    .ok (rawBytes raw)
  else
    .error ("gob: type not registered for interface: " ++ raw.Error.typeId)

/-- Model of `gob.Decoder.Decode` into a `gobRawError` (gob.go lines 142-147).
Reads one envelope from the front of the stream (gob ignores trailing bytes
after one value); fails on truncated or malformed input, and on a type tag
whose name is not registered on the decoding side. -/
def gobDec (reg : List String) (bs : List Nat) : Except String gobRawError :=
  match decStr bs with
  | none => .error "gob: unexpected EOF"
  | some (name, bs1) =>
    if name ∈ reg then
      match decStr bs1 with
      | none => .error "gob: unexpected EOF"
      | some (msg, bs2) =>
        match bs2 with
        | [] => .error "gob: unexpected EOF"
        | n :: bs3 =>
          match decFieldList n bs3 with
          | none => .error "gob: unexpected EOF"
          | some (fields, bs4) =>
            match decBool bs4 with
            | none => .error "gob: unexpected EOF"
            | some (flag, _) =>
              .ok { Error := ⟨name, msg, fields⟩, ErrorsErrorString := flag }
    else
      .error ("gob: name not registered for interface: " ++ name)

/-- Model of the `gobError` wrapper (gob.go lines 96-98): an error interface
field, `none` when the interface itself is nil. -/
structure gobError where
  Error : Option ReflectValue
deriving DecidableEq

/-- Message of the panic raised by `reflect.Value.Type()` on the zero
`Value`, reached when the unwrapping loop was given a typed-nil error. -/
def typedNilPanicMessage : String := "reflect: call of reflect.Value.Type on zero Value"

/-- Model of `gobError.GobEncode` (gob.go lines 101-134).  `.error m` models
a runtime panic with message `m`; `.ok (bytes, err)` models the ordinary
`([]byte, error)` return.  A nil error encodes to the empty byte sequence
without touching the serializer; otherwise the value is unwrapped to its base
type (a typed-nil reaches the zero `Value` and the `value.Type()` call
panics), the envelope is built with the string-error flag, the payload is
downgraded to `gobSafeError` when its type is not registered, and the
envelope is serialized. -/
def GobEncode (st : RegState) (g : gobError) : Except String (List Nat × Option String) :=
  match g.Error with
  | none => .ok ([], none)
  | some v =>
    match unwrap v with
    | .invalid => .error typedNilPanicMessage
    | .concrete ce =>
      let rawError : gobRawError :=
        { Error := if ce.typeId ∈ st.encodableTypes then ce else gobSafeError ce.message
          ErrorsErrorString := ce.typeId = errorsErrorStringTypeId }
      match gobEnc st.gobRegistered rawError with
      | .ok bs => .ok (bs, none)
      | .error msg => .ok ([], some msg)

/-- Model of `gobError.GobDecode` (gob.go lines 137-155).  `.ok e` is the new
`g.Error` after a nil method return; `.error m` is a non-nil error return
(the deserializer's error, propagated unchanged).  Zero-length input restores
the nil error without touching the deserializer; a true string-error flag
synthesizes a fresh `errors.New` value from the payload's message. -/
def GobDecode (st : RegState) (data : List Nat) : Except String (Option ReflectValue) :=
  if data.length = 0 then
    .ok none
  else
    match gobDec st.gobRegistered data with
    | .error err => .error err
    | .ok rawError =>
      if rawError.ErrorsErrorString then
        .ok (some (.concrete (errorsNew rawError.Error.message)))
      else
        .ok (some (.concrete rawError.Error))

/-- Model of `net/url.URL`, abstracted to the string form the snapshot stores:
the source only ever calls `URL.String()` at build time and `url.Parse` at
reconstruction time, so the parsed structure itself is never inspected. -/
structure URL where
  raw : String
deriving DecidableEq

/-- Model of `url.URL.String()`. -/
def urlString (u : URL) : String := u.raw

/-- Model of `net/url.Parse`: rejects control characters and a URL whose
scheme is empty because it starts with a colon (`getScheme`'s only error,
the `"://"` case); any other string parses. -/
def urlParse (s : String) : Except String URL :=
  if s.data.any (fun c => c.toNat < 32 || c.toNat == 127) then
    .error ("parse " ++ s ++ ": net/url: invalid control character in URL")
  else
    match s.data with
    | ':' :: _ => .error ("parse " ++ s ++ ": missing protocol scheme")
    | _ => .ok ⟨s⟩

/-- Header and form maps, modelled as association lists of key to values. -/
abbrev HeaderMap := List (String × List String)

/-- Model of `url.Values`, same shape as a header map. -/
abbrev ValuesMap := List (String × List String)

/-- Model of `tls.ConnectionState`, abstracted to an opaque token: the source
only copies the pointer between structures. -/
structure ConnectionState where
  sessionData : Nat
deriving DecidableEq

/-- Model of `net/http.Request`, restricted to the fields the source reads
and writes.  `URL := none` models a nil `*url.URL`. -/
structure HttpRequest where
  Method : String
  URL : Option URL
  Proto : String
  ProtoMajor : Int
  ProtoMinor : Int
  Header : HeaderMap
  ContentLength : Int
  TransferEncoding : List String
  Close : Bool
  Host : String
  Form : ValuesMap
  PostForm : ValuesMap
  Trailer : HeaderMap
  RemoteAddr : String
  RequestURI : String
  TLS : Option ConnectionState
deriving DecidableEq

/-- Zero value of `http.Request` as produced by `new(http.Request)`. -/
def HttpRequest.zero : HttpRequest :=
  { Method := "", URL := none, Proto := "", ProtoMajor := 0, ProtoMinor := 0,
    Header := [], ContentLength := 0, TransferEncoding := [], Close := false,
    Host := "", Form := [], PostForm := [], Trailer := [], RemoteAddr := "",
    RequestURI := "", TLS := none }

/-- Model of `net/http.Response`, restricted to the fields the source reads
and writes. -/
structure HttpResponse where
  Status : String
  StatusCode : Int
  Proto : String
  ProtoMajor : Int
  ProtoMinor : Int
  Header : HeaderMap
  ContentLength : Int
  TransferEncoding : List String
  Close : Bool
  Trailer : HeaderMap
  TLS : Option ConnectionState
deriving DecidableEq

/-- Zero value of `http.Response` as produced by `new(http.Response)`. -/
def HttpResponse.zero : HttpResponse :=
  { Status := "", StatusCode := 0, Proto := "", ProtoMajor := 0,
    ProtoMinor := 0, Header := [], ContentLength := 0, TransferEncoding := [],
    Close := false, Trailer := [], TLS := none }

/-- Model of the `gobRequest` snapshot structure (identical to `GobRequest`
of gob.go lines 174-195). -/
structure gobRequest where
  Method : String
  URL : String
  Proto : String
  ProtoMajor : Int
  ProtoMinor : Int
  Header : HeaderMap
  ContentLength : Int
  TransferEncoding : List String
  Close : Bool
  Host : String
  Form : ValuesMap
  PostForm : ValuesMap
  Trailer : HeaderMap
  RemoteAddr : String
  RequestURI : String
  TLS : Option ConnectionState
  Body : List Nat
  Error : gobError
deriving DecidableEq

/-- Model of the `gobResponse` snapshot structure (identical to `GobResponse`
of gob.go lines 230-246). -/
structure gobResponse where
  Status : String
  StatusCode : Int
  Proto : String
  ProtoMajor : Int
  ProtoMinor : Int
  Header : HeaderMap
  ContentLength : Int
  TransferEncoding : List String
  Close : Bool
  Trailer : HeaderMap
  TLS : Option ConnectionState
  Body : List Nat
  Error : gobError
deriving DecidableEq

/-- Model of `newGobRequestVS` for go1.3 and later (golang_13plus.go lines
28-30): copies the TLS descriptor into the snapshot. -/
def newGobRequestVS (req : HttpRequest) (r : gobRequest) : gobRequest :=
  { r with TLS := req.TLS }

/-- Model of `newGobResponseVS` for go1.3 and later (golang_13plus.go lines
34-36). -/
def newGobResponseVS (resp : HttpResponse) (r : gobResponse) : gobResponse :=
  { r with TLS := resp.TLS }

/-- Message of the runtime panic raised by dereferencing a nil pointer, as
`req.URL.String()` does when `req.URL` is nil. -/
def nilPointerPanicMessage : String :=
  "runtime error: invalid memory address or nil pointer dereference"

/-- Model of `newGobRequest` (dvr source lines 208-232): nil request yields a
nil snapshot; otherwise a pure field copy with the URL stored as its string
form.  `req.URL.String()` dereferences the URL pointer unconditionally, so a
nil URL is a runtime panic, modelled as `.error`.  `Body` and `Error` are
left at their zero values; the recording caller fills them in later. -/
def newGobRequest (req : Option HttpRequest) : Except String (Option gobRequest) :=
  match req with
  | none => .ok none
  | some rq =>
    match rq.URL with
    | none => .error nilPointerPanicMessage
    | some u =>
      .ok (some (newGobRequestVS rq
        { Method := rq.Method, URL := urlString u, Proto := rq.Proto,
          ProtoMajor := rq.ProtoMajor, ProtoMinor := rq.ProtoMinor,
          Header := rq.Header, ContentLength := rq.ContentLength,
          TransferEncoding := rq.TransferEncoding, Close := rq.Close,
          Host := rq.Host, Form := rq.Form, PostForm := rq.PostForm,
          Trailer := rq.Trailer, RemoteAddr := rq.RemoteAddr,
          RequestURI := rq.RequestURI, TLS := none, Body := [],
          Error := ⟨none⟩ }))

/-- Model of `NewGobRequest` (gob.go lines 198-222), whose body is textually
identical to `newGobRequest` of the dvr source file. -/
def NewGobRequest (req : Option HttpRequest) : Except String (Option gobRequest) :=
  newGobRequest req

/-- Model of `newGobResponse` (gob.go lines 249-268): nil response yields a
nil snapshot; otherwise a pure field copy with no failure path. -/
def newGobResponse (resp : Option HttpResponse) : Option gobResponse :=
  match resp with
  | none => none
  | some rs =>
    some (newGobResponseVS rs
      { Status := rs.Status, StatusCode := rs.StatusCode, Proto := rs.Proto,
        ProtoMajor := rs.ProtoMajor, ProtoMinor := rs.ProtoMinor,
        Header := rs.Header, ContentLength := rs.ContentLength,
        TransferEncoding := rs.TransferEncoding, Close := rs.Close,
        Trailer := rs.Trailer, TLS := none, Body := [], Error := ⟨none⟩ })

/-- Model of the `gobQuery` persisted unit (dvr source lines 287-296). -/
structure gobQuery where
  Request : Option gobRequest
  Response : Option gobResponse
  Error : gobError
deriving DecidableEq

/-- Modelled from the spec: the `RequestResponse` result type is repository
code outside src/ (only its construction appears in the dvr source file).
Per the spec's Reconstructed Interaction Result it carries a live-shaped
request, a live-shaped response, the two body byte sequences, the two
body-read errors, and the round-trip error. -/
structure RequestResponse where
  Request : Option HttpRequest
  RequestBody : List Nat
  RequestBodyError : Option ReflectValue
  Response : Option HttpResponse
  ResponseBody : List Nat
  ResponseBodyError : Option ReflectValue
  Error : Option ReflectValue
deriving DecidableEq

/-- Zero value of `RequestResponse` as produced by `new(RequestResponse)`. -/
def RequestResponse.zero : RequestResponse :=
  { Request := none, RequestBody := [], RequestBodyError := none,
    Response := none, ResponseBody := [], ResponseBodyError := none,
    Error := none }

/-- Modelled from the spec: `panicIfError` is repository code outside src/.
Per the spec a URL-parse failure during reconstruction is a fatal,
non-recoverable abort that never returns a result, modelled as the `.error`
branch of `Except`. -/
def panicIfError {α : Type} (err : String) : Except String α := .error err

/-- Model of the request block of `gobQuery.RequestResponse` (dvr source
lines 305-327): when the request snapshot is present, re-parse the stored
URL (a failure is the fatal `panicIfError` path), copy every snapshot field
into a fresh live request, and carry the body bytes and body-read error into
the result. -/
def buildRequestPart (g : gobQuery) (rr : RequestResponse) : Except String RequestResponse :=
  match g.Request with
  | none => .ok rr
  | some gr =>
    match urlParse gr.URL with
    | .error err => panicIfError err
    | .ok u =>
      .ok { rr with
        Request := some { HttpRequest.zero with
          Method := gr.Method, URL := some u, Proto := gr.Proto,
          ProtoMajor := gr.ProtoMajor, ProtoMinor := gr.ProtoMinor,
          Header := gr.Header, ContentLength := gr.ContentLength,
          TransferEncoding := gr.TransferEncoding, Close := gr.Close,
          Host := gr.Host, Form := gr.Form, PostForm := gr.PostForm,
          Trailer := gr.Trailer, RemoteAddr := gr.RemoteAddr,
          RequestURI := gr.RequestURI }
        RequestBody := gr.Body
        RequestBodyError := gr.Error.Error }

/-- Model of the response block of `gobQuery.RequestResponse` (dvr source
lines 330-346): a pure field copy with no failure path. -/
def buildResponsePart (g : gobQuery) (rr : RequestResponse) : RequestResponse :=
  match g.Response with
  | none => rr
  | some gresp =>
    { rr with
      Response := some { HttpResponse.zero with
        Status := gresp.Status, StatusCode := gresp.StatusCode,
        Proto := gresp.Proto, ProtoMajor := gresp.ProtoMajor,
        ProtoMinor := gresp.ProtoMinor, Header := gresp.Header,
        ContentLength := gresp.ContentLength,
        TransferEncoding := gresp.TransferEncoding, Close := gresp.Close,
        Trailer := gresp.Trailer }
      ResponseBody := gresp.Body
      ResponseBodyError := gresp.Error.Error }

/-- Model of `gobQuery.requestResponseVS` for go1.3 and later
(golang_13plus.go lines 39-46): copies the TLS descriptors into the
reconstructed request and response when both sides are present. -/
def gobQuery.requestResponseVS (g : gobQuery) (rr : RequestResponse) : RequestResponse :=
  let rr1 :=
    match g.Request, rr.Request with
    | some gr, some r => { rr with Request := some { r with TLS := gr.TLS } }
    | _, _ => rr
  match g.Response, rr1.Response with
  | some gresp, some r => { rr1 with Response := some { r with TLS := gresp.TLS } }
  | _, _ => rr1

/-- Model of `gobQuery.RequestResponse` (dvr source lines 300-355): rebuild
the live request (fatal on URL-parse failure), rebuild the live response,
apply the version-specific TLS copies, then attach the round-trip error. -/
def gobQuery.RequestResponse (g : gobQuery) : Except String RequestResponse :=
  match buildRequestPart g RequestResponse.zero with
  | .error m => .error m
  | .ok rr1 =>
    let rr2 := buildResponsePart g rr1
    let rr3 := gobQuery.requestResponseVS g rr2
    .ok { rr3 with Error := g.Error.Error }

/-- Zero value of the `gobRequest` snapshot, as produced by
`new(gobRequest)`. -/
def gobRequest.zero : gobRequest :=
  { Method := "", URL := "", Proto := "", ProtoMajor := 0, ProtoMinor := 0,
    Header := [], ContentLength := 0, TransferEncoding := [], Close := false,
    Host := "", Form := [], PostForm := [], Trailer := [], RemoteAddr := "",
    RequestURI := "", TLS := none, Body := [], Error := ⟨none⟩ }

/-- Sample URL string used by the concrete round-trip instances. -/
def sampleURLString : String := "http://example.com/x?a=1"

/-- Fully populated sample live request used to exercise the snapshot round
trip at a concrete input. -/
def sampleRequest : HttpRequest :=
  { Method := "POST", URL := some ⟨sampleURLString⟩, Proto := "HTTP/1.1",
    ProtoMajor := 1, ProtoMinor := 1, Header := [("Accept", ["text/plain"])],
    ContentLength := 4, TransferEncoding := ["chunked"], Close := true,
    Host := "example.com", Form := [("a", ["1"])], PostForm := [("b", ["2"])],
    Trailer := [("T", ["t"])], RemoteAddr := "10.0.0.1:5",
    RequestURI := "/x?a=1", TLS := some ⟨7⟩ }

/-! Helper lemmas: the modelled gob stream is parsed back exactly. -/

/-- Reading a string back off the front of the stream recovers it and leaves
the remaining bytes untouched. -/
theorem decStr_encStr (s : String) (tl : List Nat) :
    decStr (encStr s ++ tl) = some (s, tl) := by
  obtain ⟨d⟩ := s
  have h1 : (d.map Char.toNat ++ tl).take (d.map Char.toNat).length
      = d.map Char.toNat := List.take_left _ _
  have h2 : (d.map Char.toNat ++ tl).drop (d.map Char.toNat).length = tl :=
    List.drop_left _ _
  have hlen : d.length = (d.map Char.toNat).length := (List.length_map _ _).symm
  simp only [encStr, List.cons_append, decStr]
  rw [hlen, if_pos (by simp), h1, h2]
  simp [List.map_map, Function.comp_def, Char.ofNat_toNat]

/-- Reading a field list back off the front of the stream recovers it. -/
theorem decFieldList_encFieldList (l : List (String × String)) (tl : List Nat) :
    decFieldList l.length (encFieldList l ++ tl) = some (l, tl) := by
  induction l generalizing tl with
  | nil => rfl
  | cons kv r ih =>
    obtain ⟨k, v⟩ := kv
    simp only [encFieldList, List.append_assoc, List.length_cons, decFieldList,
      decStr_encStr, ih]

/-- Reading a boolean back off the front of the stream recovers it. -/
theorem decBool_encBool (b : Bool) (tl : List Nat) :
    decBool (encBool b ++ tl) = some (b, tl) := by
  cases b <;> rfl

/-- Decoding the bytes the modelled serializer produced for an envelope
recovers exactly that envelope, as long as its payload type name is
registered on the decoding side. -/
theorem gobDec_rawBytes (reg : List String) (raw : gobRawError)
    (hreg : raw.Error.typeId ∈ reg) :
    gobDec reg (rawBytes raw) = .ok raw := by
  obtain ⟨⟨id, msg, fields⟩, flag⟩ := raw
  simp only [rawBytes, gobDec, decStr_encStr]
  rw [if_pos hreg]
  simp only [decStr_encStr, decFieldList_encFieldList]
  have hb : decBool (encBool flag ++ []) = some (flag, []) := decBool_encBool flag []
  rw [List.append_nil] at hb
  simp only [hb]

/-- Envelope bytes are never empty: they start with the type name's count. -/
theorem rawBytes_ne_nil (raw : gobRawError) : (rawBytes raw).length ≠ 0 := by
  simp [rawBytes, encStr]

/-- Evaluation of `GobEncode` on a non-nil, non-typed-nil error whose base
payload type (after the registry downgrade) is gob-registered. -/
theorem GobEncode_concrete (st : RegState) (v : ReflectValue) (e : ConcreteError)
    (hbase : unwrap v = .concrete e)
    (hgob : (if e.typeId ∈ st.encodableTypes then e else gobSafeError e.message).typeId
      ∈ st.gobRegistered) :
    GobEncode st ⟨some v⟩ =
      .ok (rawBytes
        { Error := if e.typeId ∈ st.encodableTypes then e else gobSafeError e.message
          ErrorsErrorString := e.typeId = errorsErrorStringTypeId }, none) := by
  simp only [GobEncode, hbase, gobEnc]
  rw [if_pos hgob]

/-- Evaluation of `GobDecode` on well-formed envelope bytes whose payload
type name is registered on the decoding side. -/
theorem GobDecode_rawBytes (st : RegState) (raw : gobRawError)
    (hreg : raw.Error.typeId ∈ st.gobRegistered) :
    GobDecode st (rawBytes raw) =
      .ok (some (.concrete
        (if raw.ErrorsErrorString then errorsNew raw.Error.message else raw.Error))) := by
  simp only [GobDecode]
  rw [if_neg (rawBytes_ne_nil raw), gobDec_rawBytes st.gobRegistered raw hreg]
  cases h : raw.ErrorsErrorString <;> simp [h]

/-- Registration adds the base type identifier to both registries, so the
invariant that every encodable type is also gob-registered is preserved. -/
theorem registerErrorType_preserves (st : RegState) (t : String)
    (h : ∀ id ∈ st.encodableTypes, id ∈ st.gobRegistered) :
    ∀ id ∈ (registerErrorType st t).encodableTypes,
      id ∈ (registerErrorType st t).gobRegistered := by
  intro id hid
  simp only [registerErrorType, List.mem_cons] at hid ⊢
  rcases hid with rfl | hid
  · exact Or.inl rfl
  · exact Or.inr (h id hid)

/-- The state `init()` leaves behind satisfies the registry invariant. -/
theorem initState_wf :
    ∀ id ∈ initState.encodableTypes, id ∈ initState.gobRegistered := by decide

/-- Evaluation of `gobQuery.RequestResponse` on a query holding a request
snapshot whose URL re-parses and no response snapshot. -/
theorem RequestResponse_req_ok (gr : gobRequest) (gerr : gobError) (u : URL)
    (hp : urlParse gr.URL = .ok u) :
    gobQuery.RequestResponse ⟨some gr, none, gerr⟩ =
      .ok { Request := some { HttpRequest.zero with
              Method := gr.Method, URL := some u, Proto := gr.Proto,
              ProtoMajor := gr.ProtoMajor, ProtoMinor := gr.ProtoMinor,
              Header := gr.Header, ContentLength := gr.ContentLength,
              TransferEncoding := gr.TransferEncoding, Close := gr.Close,
              Host := gr.Host, Form := gr.Form, PostForm := gr.PostForm,
              Trailer := gr.Trailer, RemoteAddr := gr.RemoteAddr,
              RequestURI := gr.RequestURI, TLS := gr.TLS },
            RequestBody := gr.Body, RequestBodyError := gr.Error.Error,
            Response := none, ResponseBody := [], ResponseBodyError := none,
            Error := gerr.Error } := by
  simp only [gobQuery.RequestResponse, buildRequestPart, hp, buildResponsePart,
    gobQuery.requestResponseVS, RequestResponse.zero]

/-- C1: for every error type registered via the registration entry point
(`registerErrorType`), and for every sample value `e` of that type, decoding
the bytes produced by encoding `e` (`gobError.GobDecode` after
`gobError.GobEncode`) yields an error value equal to `e` in both concrete
type and message. -/
theorem C1_registered_type_roundtrip (st : RegState) (v : ReflectValue)
    (e : ConcreteError) (hbase : unwrap v = .concrete e)
    (hwf : ∀ id ∈ st.encodableTypes, id ∈ st.gobRegistered)
    (hreg : e.typeId ∈ st.encodableTypes) :
    ∃ bs e2, GobEncode st ⟨some v⟩ = .ok (bs, none) ∧
      GobDecode st bs = .ok (some (.concrete e2)) ∧
      e2.typeId = e.typeId ∧ e2.message = e.message := by
  have hgob : e.typeId ∈ st.gobRegistered := hwf _ hreg
  have hgob' : (if e.typeId ∈ st.encodableTypes then e
      else gobSafeError e.message).typeId ∈ st.gobRegistered := by
    rw [if_pos hreg]; exact hgob
  have henc := GobEncode_concrete st v e hbase hgob'
  rw [if_pos hreg] at henc
  have hdec := GobDecode_rawBytes st
    ⟨e, decide (e.typeId = errorsErrorStringTypeId)⟩ hgob
  cases hflag : decide (e.typeId = errorsErrorStringTypeId) with
  | false =>
    rw [hflag] at henc hdec
    refine ⟨_, e, henc, ?_, rfl, rfl⟩
    simpa using hdec
  | true =>
    rw [hflag] at henc hdec
    refine ⟨_, errorsNew e.message, henc, ?_, ?_, rfl⟩
    · simpa using hdec
    · exact (of_decide_eq_true hflag).symm

/-- C1 witness: a registered `net.OpError` sample, handed to the codec as a
pointer, round-trips through the state `init()` built. -/
theorem C1_witness :
    ∃ bs e2,
      GobEncode initState
        ⟨some (.ptr (.concrete ⟨"net.OpError", "read tcp: refused", [("Op", "read")]⟩))⟩
        = .ok (bs, none) ∧
      GobDecode initState bs = .ok (some (.concrete e2)) ∧
      e2.typeId = "net.OpError" ∧ e2.message = "read tcp: refused" :=
  C1_registered_type_roundtrip initState
    (.ptr (.concrete ⟨"net.OpError", "read tcp: refused", [("Op", "read")]⟩))
    ⟨"net.OpError", "read tcp: refused", [("Op", "read")]⟩
    rfl initState_wf (by decide)

/-- C2 counterexample: the bare string error type `errors.errorString` is
not in `encodableTypes`, yet decoding the bytes produced by encoding such a
value yields a value whose concrete type is `errors.errorString` again, not
the fallback type `gobSafeError`; so the claim quantified over every
unregistered type fails at this input. -/
theorem C2_counterexample :
    errorsErrorStringTypeId ∉ initState.encodableTypes ∧
    GobEncode initState ⟨some (.concrete (errorsNew "Unexpected"))⟩ =
      .ok (rawBytes ⟨gobSafeError "Unexpected", true⟩, none) ∧
    GobDecode initState (rawBytes ⟨gobSafeError "Unexpected", true⟩) =
      .ok (some (.concrete (errorsNew "Unexpected"))) ∧
    (errorsNew "Unexpected").typeId ≠ gobSafeErrorTypeId := by
  refine ⟨by decide, ?_, ?_, by decide⟩
  · rfl
  · rfl

/-- C2 (amended): for every error value whose concrete type is neither in
the registry (`encodableTypes`) nor the bare string error type
`errors.errorString`, encoding succeeds by downgrading the payload to the
string-only fallback, and decoding yields exactly `gobSafeError` carrying
the original message and nothing else. -/
theorem C2_unregistered_fallback (st : RegState) (v : ReflectValue)
    (e : ConcreteError) (hbase : unwrap v = .concrete e)
    (hsafe : gobSafeErrorTypeId ∈ st.gobRegistered)
    (hnot : e.typeId ∉ st.encodableTypes)
    (hnotstr : e.typeId ≠ errorsErrorStringTypeId) :
    ∃ bs, GobEncode st ⟨some v⟩ = .ok (bs, none) ∧
      GobDecode st bs = .ok (some (.concrete (gobSafeError e.message))) := by
  have hgob' : (if e.typeId ∈ st.encodableTypes then e
      else gobSafeError e.message).typeId ∈ st.gobRegistered := by
    rw [if_neg hnot]; exact hsafe
  have henc := GobEncode_concrete st v e hbase hgob'
  rw [if_neg hnot] at henc
  have hflag : decide (e.typeId = errorsErrorStringTypeId) = false := by
    simp [hnotstr]
  rw [hflag] at henc
  have hdec := GobDecode_rawBytes st ⟨gobSafeError e.message, false⟩ hsafe
  refine ⟨_, henc, ?_⟩
  simpa using hdec

/-- C2 witness: the test file's unregistered `customError` sample degrades to
a `gobSafeError` carrying only the message. -/
theorem C2_witness :
    ∃ bs,
      GobEncode initState
        ⟨some (.concrete ⟨"github.com/MiCHiLU/go-gob-http.customError", "Unexpected", []⟩)⟩
        = .ok (bs, none) ∧
      GobDecode initState bs = .ok (some (.concrete (gobSafeError "Unexpected"))) :=
  C2_unregistered_fallback initState
    (.concrete ⟨"github.com/MiCHiLU/go-gob-http.customError", "Unexpected", []⟩)
    ⟨"github.com/MiCHiLU/go-gob-http.customError", "Unexpected", []⟩
    rfl (by decide) (by decide) (by decide)

/-- C4: for every non-empty byte sequence on which the underlying
deserializer reports an error, `gobError.GobDecode` returns that same error
to the caller: it is not swallowed, not a panic, and not decoded as an
absent error. -/
theorem C4_deserializer_error_propagates (st : RegState) (data : List Nat)
    (m : String) (hne : data.length ≠ 0)
    (hfail : gobDec st.gobRegistered data = .error m) :
    GobDecode st data = .error m := by
  simp only [GobDecode]
  rw [if_neg hne, hfail]

/-- C4 witness: four arbitrary bytes are rejected by the deserializer and
the decode method reports exactly that error. -/
theorem C4_witness :
    GobDecode initState [0, 1, 2, 3] =
      .error "gob: name not registered for interface: " :=
  C4_deserializer_error_propagates initState [0, 1, 2, 3] _ (by decide) rfl

/-- C5: encoding an absent error produces the empty byte sequence and
decoding the empty byte sequence restores the absent error, for every
registration state whatsoever: neither direction ever consults the
serializer or its registries, so `decode(encode(nil)) = nil`. -/
theorem C5_absent_error_roundtrip (st : RegState) :
    GobEncode st ⟨none⟩ = .ok ([], none) ∧ GobDecode st [] = .ok none :=
  ⟨rfl, rfl⟩

/-- C6: for every message, encoding the bare string error `errors.New msg`
sets the `ErrorsErrorString` flag in the stored envelope, and decoding
yields a fresh bare string error of the same bare type with an identical
message. -/
theorem C6_plain_string_roundtrip (msg : String) :
    ∃ bs, GobEncode initState ⟨some (.concrete (errorsNew msg))⟩ = .ok (bs, none) ∧
      (gobDec initState.gobRegistered bs).map gobRawError.ErrorsErrorString = .ok true ∧
      GobDecode initState bs = .ok (some (.concrete (errorsNew msg))) := by
  have hsafe : gobSafeErrorTypeId ∈ initState.gobRegistered := by decide
  have hnot : (errorsNew msg).typeId ∉ initState.encodableTypes := by
    show errorsErrorStringTypeId ∉ initState.encodableTypes
    decide
  have hgob' : (if (errorsNew msg).typeId ∈ initState.encodableTypes then errorsNew msg
      else gobSafeError (errorsNew msg).message).typeId ∈ initState.gobRegistered := by
    rw [if_neg hnot]; exact hsafe
  have henc := GobEncode_concrete initState (.concrete (errorsNew msg)) (errorsNew msg)
    rfl hgob'
  rw [if_neg hnot] at henc
  have hflag : decide ((errorsNew msg).typeId = errorsErrorStringTypeId) = true :=
    decide_eq_true rfl
  rw [hflag] at henc
  have hdec := GobDecode_rawBytes initState ⟨gobSafeError (errorsNew msg).message, true⟩
    hsafe
  refine ⟨_, henc, ?_, ?_⟩
  · rw [gobDec_rawBytes _ _ hsafe]; rfl
  · simpa using hdec

/-- C3: for every Query Snapshot whose Request Snapshot is present and whose
stored URL string fails to parse (the URL "://" is one such string),
reconstruction aborts via the fatal, non-recoverable path with the parse
failure, and never returns a result, partial or otherwise. -/
theorem C3_fatal_url_reconstruction (g : gobQuery) (gr : gobRequest) (m : String)
    (hreq : g.Request = some gr) (hurl : urlParse gr.URL = .error m) :
    gobQuery.RequestResponse g = .error m := by
  have h1 : buildRequestPart g RequestResponse.zero = .error m := by
    simp only [buildRequestPart, hreq, hurl, panicIfError]
  simp only [gobQuery.RequestResponse, h1]

/-- C3 witness: the test file's snapshot, a zero request snapshot with URL
"://", fails to parse and aborts reconstruction. -/
theorem C3_witness :
    gobQuery.RequestResponse
        ⟨some { gobRequest.zero with URL := "://" }, none, ⟨none⟩⟩ =
      .error "parse ://: missing protocol scheme" :=
  C3_fatal_url_reconstruction _ _ _ rfl rfl

/-- C7: building a Request Snapshot from a fully populated live request with
a non-nil URL, filling in the drained body bytes and body-read error (a step
the spec assigns to the recording caller), and reconstructing through a
Query Snapshot yields a live request whose copied fields, TLS descriptor,
body bytes, body-read error, and round-trip error all equal the originals,
and whose URL is the re-parse of the original URL's string form. -/
theorem C7_request_field_roundtrip (rq : HttpRequest) (u u2 : URL)
    (b : List Nat) (er rt : Option ReflectValue)
    (hurl : rq.URL = some u) (hparse : urlParse (urlString u) = .ok u2) :
    ∃ gr0 rr,
      newGobRequest (some rq) = .ok (some gr0) ∧
      gobQuery.RequestResponse ⟨some { gr0 with Body := b, Error := ⟨er⟩ }, none, ⟨rt⟩⟩
        = .ok rr ∧
      (∃ rq2, rr.Request = some rq2 ∧
        rq2.Method = rq.Method ∧ rq2.URL = some u2 ∧ rq2.Proto = rq.Proto ∧
        rq2.ProtoMajor = rq.ProtoMajor ∧ rq2.ProtoMinor = rq.ProtoMinor ∧
        rq2.Header = rq.Header ∧ rq2.ContentLength = rq.ContentLength ∧
        rq2.TransferEncoding = rq.TransferEncoding ∧ rq2.Close = rq.Close ∧
        rq2.Host = rq.Host ∧ rq2.Form = rq.Form ∧ rq2.PostForm = rq.PostForm ∧
        rq2.Trailer = rq.Trailer ∧ rq2.RemoteAddr = rq.RemoteAddr ∧
        rq2.RequestURI = rq.RequestURI ∧ rq2.TLS = rq.TLS) ∧
      rr.RequestBody = b ∧ rr.RequestBodyError = er ∧ rr.Error = rt := by
  obtain ⟨Method, rqURL, Proto, PMa, PMi, Hd, CL, TE, Cl, Ho, Fo, PF, Tr, RA, RU, T⟩ := rq
  obtain rfl : rqURL = some u := hurl
  refine ⟨_, _, rfl, RequestResponse_req_ok _ ⟨rt⟩ u2 hparse, ?_, rfl, rfl, rfl⟩
  exact ⟨_, rfl, rfl, rfl, rfl, rfl, rfl, rfl, rfl, rfl, rfl, rfl, rfl, rfl, rfl,
    rfl, rfl, rfl⟩

/-- C7 witness: the fully populated sample request round-trips through the
snapshot at a concrete input. -/
theorem C7_witness :
    ∃ gr0 rr,
      newGobRequest (some sampleRequest) = .ok (some gr0) ∧
      gobQuery.RequestResponse
          ⟨some { gr0 with Body := [1, 2], Error := ⟨some (.concrete (gobSafeError "boom"))⟩ },
           none, ⟨some (.concrete (errorsNew "rt"))⟩⟩ = .ok rr ∧
      (∃ rq2, rr.Request = some rq2 ∧
        rq2.Method = sampleRequest.Method ∧ rq2.URL = some ⟨sampleURLString⟩ ∧
        rq2.Proto = sampleRequest.Proto ∧
        rq2.ProtoMajor = sampleRequest.ProtoMajor ∧
        rq2.ProtoMinor = sampleRequest.ProtoMinor ∧
        rq2.Header = sampleRequest.Header ∧
        rq2.ContentLength = sampleRequest.ContentLength ∧
        rq2.TransferEncoding = sampleRequest.TransferEncoding ∧
        rq2.Close = sampleRequest.Close ∧ rq2.Host = sampleRequest.Host ∧
        rq2.Form = sampleRequest.Form ∧ rq2.PostForm = sampleRequest.PostForm ∧
        rq2.Trailer = sampleRequest.Trailer ∧
        rq2.RemoteAddr = sampleRequest.RemoteAddr ∧
        rq2.RequestURI = sampleRequest.RequestURI ∧
        rq2.TLS = sampleRequest.TLS) ∧
      rr.RequestBody = [1, 2] ∧
      rr.RequestBodyError = some (.concrete (gobSafeError "boom")) ∧
      rr.Error = some (.concrete (errorsNew "rt")) :=
  C7_request_field_roundtrip sampleRequest ⟨sampleURLString⟩ ⟨sampleURLString⟩
    [1, 2] (some (.concrete (gobSafeError "boom")))
    (some (.concrete (errorsNew "rt"))) rfl rfl

/-- C8: building a Request or Response Snapshot from an absent live value
yields an absent snapshot rather than an error, and reconstructing a Query
Snapshot whose Request Snapshot (or Response Snapshot) is absent yields a
result whose live request (or response) is absent. -/
theorem C8_nil_passthrough (g : gobQuery) :
    newGobRequest none = .ok none ∧ newGobResponse none = none ∧
    (g.Request = none →
      ∃ rr, gobQuery.RequestResponse g = .ok rr ∧ rr.Request = none ∧
        (g.Response = none → rr.Response = none)) ∧
    (∀ rr, gobQuery.RequestResponse g = .ok rr → g.Response = none →
      rr.Response = none) := by
  obtain ⟨greq, gresp, gerr⟩ := g
  refine ⟨rfl, rfl, ?_, ?_⟩
  · rintro rfl
    cases gresp with
    | none => exact ⟨_, rfl, rfl, fun _ => rfl⟩
    | some gr2 => exact ⟨_, rfl, rfl, fun h => nomatch h⟩
  · intro rr hok hresp
    cases greq with
    | none =>
      cases gresp with
      | some gr2 => exact nomatch hresp
      | none => exact (Except.ok.inj hok) ▸ rfl
    | some gr =>
      cases gresp with
      | some gr2 => exact nomatch hresp
      | none =>
        cases hp : urlParse gr.URL with
        | error m =>
          rw [show gobQuery.RequestResponse ⟨some gr, none, gerr⟩
              = .error m by simp only [gobQuery.RequestResponse, buildRequestPart, hp,
                panicIfError]] at hok
          exact nomatch hok
        | ok u =>
          rw [RequestResponse_req_ok gr gerr u hp] at hok
          exact (Except.ok.inj hok) ▸ rfl

/-- C8 witness: the empty Query Snapshot reconstructs to a result with both
live values absent. -/
theorem C8_witness :
    ∃ rr, gobQuery.RequestResponse ⟨none, none, ⟨none⟩⟩ = .ok rr ∧
      rr.Request = none ∧ rr.Response = none := by
  obtain ⟨-, -, h, -⟩ := C8_nil_passthrough ⟨none, none, ⟨none⟩⟩
  obtain ⟨rr, h1, h2, h3⟩ := h rfl
  exact ⟨rr, h1, h2, h3 rfl⟩

/-- C9: for every error interface value whose reflective unwrapping reaches
the zero `Value` (a typed-nil error such as `(*net.OpError)(nil)`), encoding
does not degrade or return an error value: the `value.Type()` call panics,
so encoding is not total over non-nil error interface values. -/
theorem C9_typed_nil_panics (st : RegState) (v : ReflectValue)
    (hv : unwrap v = .invalid) :
    GobEncode st ⟨some v⟩ = .error typedNilPanicMessage := by
  simp only [GobEncode, hv]

/-- C9 witness: a single nil pointer of a concrete error type panics the
encoder. -/
theorem C9_witness :
    GobEncode initState ⟨some (.ptr .invalid)⟩ = .error typedNilPanicMessage :=
  C9_typed_nil_panics initState (.ptr .invalid) rfl

/-- C10: for every non-nil live request whose URL field is nil, building the
snapshot panics on the unconditional `req.URL.String()` dereference instead
of producing a snapshot or an error. -/
theorem C10_nil_url_panics (rq : HttpRequest) (h : rq.URL = none) :
    NewGobRequest (some rq) = .error nilPointerPanicMessage := by
  simp only [NewGobRequest, newGobRequest, h]

/-- C10 witness: the zero request has a nil URL and panics the snapshot
builder. -/
theorem C10_witness :
    NewGobRequest (some HttpRequest.zero) = .error nilPointerPanicMessage :=
  C10_nil_url_panics HttpRequest.zero rfl

end Gobhttp
